import Mathlib

/-!
Verification development for the llm-audit-assistant RAG service.

Strings are modelled as lists of characters (one Char per Unicode code
point, matching Python string indexing and len). Each definition is a
shallow embedding of the corresponding Python function from the
repository, with stateful or effectful code made explicit.
-/

/-- Convert a string literal to its code-point list model. -/
def str (s : String) : List Char := s.data

/-! ## Text chunker: app/ingest/preprocessor.py -/

/-- Sentence-ending punctuation of the split pattern in chunk_text. -/
def isSentEnd (c : Char) : Bool := c = '.' || c = '!' || c = '?'

/-- True when the most recently consumed character (head of the reversed
accumulator) is sentence-ending punctuation. -/
def headIsSentEnd : List Char → Bool
  | [] => false
  | p :: _ => isSentEnd p

/-- Model of the regex split in chunk_text: the text is cut at every
maximal run of spaces whose preceding character is one of period, bang or
question mark; the spaces themselves are discarded. The accumulator holds
the current sentence reversed; the flag records that a run of separator
spaces is being consumed (so the accumulator is empty there). -/
def splitAux (skipping : Bool) (acc : List Char) : List Char → List (List Char)
  | [] => [acc.reverse]
  | c :: rest =>
    if skipping then
      if c = ' ' then splitAux true acc rest
      else splitAux false [c] rest
    else if c = ' ' && headIsSentEnd acc then
      acc.reverse :: splitAux true [] rest
    else
      splitAux false (c :: acc) rest

/-- Sentence splitting step of chunk_text. -/
def splitSentences (text : List Char) : List (List Char) := splitAux false [] text

/-- Characters stripped by the Python str.strip method (ASCII whitespace). -/
def isPySpace (c : Char) : Bool :=
  c = ' ' || c = '\t' || c = '\n' || c = '\x0b' || c = '\x0c' || c = '\r'

/-- Model of str.strip: remove whitespace from both ends. -/
def pyStrip (l : List Char) : List Char :=
  ((l.dropWhile isPySpace).reverse.dropWhile isPySpace).reverse

/-- The sentence-packing loop of chunk_text: current is the running
buffer; when appending the next sentence would make it exceed max_length,
the stripped buffer is flushed and the sentence starts a new buffer,
otherwise the sentence is appended after a joining space. The final
buffer is flushed when non-empty. -/
def chunkLoop (maxLength : Nat) : List (List Char) → List Char → List (List Char)
  | [], current => if current = [] then [] else [pyStrip current]
  | sent :: rest, current =>
    if maxLength < current.length + sent.length then
      pyStrip current :: chunkLoop maxLength rest sent
    else
      chunkLoop maxLength rest (current ++ ' ' :: sent)

/-- Model of chunk_text from app/ingest/preprocessor.py. -/
def chunk_text (text : List Char) (maxLength : Nat) : List (List Char) :=
  chunkLoop maxLength (splitSentences text) []

/-! ## Injection screen and sanitizers: app/utils/security.py -/

/-- Substring test: does the pattern occur contiguously in the text. -/
def hasSub (pat : List Char) : List Char → Bool
  | [] => pat.isEmpty
  | c :: rest => List.isPrefixOf pat (c :: rest) || hasSub pat rest

/-- The fixed denylist of scan_prompt_injection, all lowercase; every
pattern is a literal (the regex metacharacter-free case of re.search). -/
def injectionPatterns : List (List Char) :=
  [str "ignore previous instructions",
   str "forget previous",
   str "you are now",
   str "repeat after me",
   str "/system",
   str "system prompt",
   str "ignore constraints",
   str "new instructions",
   str "overwrite instructions"]

/-- Model of scan_prompt_injection: case-insensitive search for any of
the fixed patterns, via ASCII lowercasing of the text. -/
def scan_prompt_injection (text : List Char) : Bool :=
  injectionPatterns.any (fun pat => hasSub pat (text.map Char.toLower))

/-- Model of html.escape with quote=True: each markup-significant
character is replaced by its entity; all other characters pass through. -/
def escapeChar (c : Char) : List Char :=
  if c = '&' then str "&amp;"
  else if c = '<' then str "&lt;"
  else if c = '>' then str "&gt;"
  else if c = '"' then str "&quot;"
  else if c = '\x27' then str "&#x27;"
  else [c]

/-- HTML-escape a whole text. -/
def htmlEscape (l : List Char) : List Char := l.flatMap escapeChar

/-- Model of sanitize_input: HTML-escape, then truncate to max_length. -/
def sanitize_input (text : List Char) (maxLength : Nat) : List Char :=
  (htmlEscape text).take maxLength

/-- Model of sanitize_output: stringify (the embedding is typed, so the
input is already text), HTML-escape, then truncate to max_length. -/
def sanitize_output (text : List Char) (maxLength : Nat) : List Char :=
  (htmlEscape text).take maxLength

/-! ## Rate limiter: app/utils/security.py, RateLimiterMiddleware -/

/-- Outcome of the middleware for one request. -/
inductive RLOutcome
  | forwarded
  | rejected429
deriving DecidableEq, Repr

/-- What the middleware returned for one request: whether the downstream
handler ran, and for rejections the 429 status and detail body. -/
structure DispatchResult where
  outcome : RLOutcome
  handlerInvoked : Bool
  statusCode : Option Nat
  detail : Option (List Char)
deriving DecidableEq, Repr

/-- Result of the path where call_next runs. -/
def forwardedResult : DispatchResult := ⟨.forwarded, true, none, none⟩

/-- Result of the rejection path: 429 with the fixed detail body and no
downstream call. -/
def rateLimitedResult : DispatchResult :=
  ⟨.rejected429, false, some 429, some (str "Rate limit exceeded. Try again later.")⟩

/-- The middleware state: the clients dictionary, as the per-key counter
with zero for never-touched keys (setdefault initializes to zero). -/
structure RLState where
  clients : String × Nat → Nat

/-- Model of RateLimiterMiddleware.dispatch: derive the window index from
the time, increment the counter for the (client, window) key, reject with
429 when the post-increment value exceeds max_requests, otherwise invoke
the downstream handler. -/
def dispatch (maxRequests windowSeconds : Nat) (s : RLState) (ip : String) (now : Nat) :
    DispatchResult × RLState :=
  let window := now / windowSeconds
  let key := (ip, window)
  let newCount := s.clients key + 1
  let s' : RLState := ⟨fun k => if k = key then newCount else s.clients k⟩
  if maxRequests < newCount then
    (rateLimitedResult, s')
  else
    (forwardedResult, s')

/-- Sequential processing of a list of (client, time) requests through
the middleware, collecting each result. -/
def processAll (maxRequests windowSeconds : Nat) : RLState → List (String × Nat) →
    List DispatchResult × RLState
  | s, [] => ([], s)
  | s, (ip, t) :: rest =>
    let step := dispatch maxRequests windowSeconds s ip t
    let restRun := processAll maxRequests windowSeconds step.2 rest
    (step.1 :: restRun.1, restRun.2)

/-! ## Generation gateway: app/llm/client.py, LLMClient.generate -/

/-- The record LLMClient.generate returns. Python returns a dict whose
keys vary by path, so presence of a key is modelled with an outer Option:
none means the key is absent from the dict. tokens_used may be present
with value null, hence the nested Option. -/
structure GenReturn where
  answer : List Char
  tokens_used : Option (Option Nat)
  latency_ms : Option Nat
  error : Option (List Char)
deriving DecidableEq, Repr

/-- What the pluggable model backend does for one call: a successful
completion with optional token usage, one of the handled transport or
backend errors, or an arbitrary unexpected exception. -/
inductive BackendOutcome
  | success (answer : List Char) (tokens : Option Nat)
  | connError (msg : List Char)
  | rateLimitError (msg : List Char)
  | apiError (msg : List Char)
  | timeoutError
  | requestError (msg : List Char)
  | unexpected (msg : List Char)
deriving DecidableEq, Repr

/-- The outer exception handler of generate: fallback answer, the error
text, and the measured latency (tokens_used key absent). -/
def unexpectedReturn (elapsedMs : Nat) (msg : List Char) : GenReturn :=
  ⟨str "I encountered an unexpected error. Please try again later.",
   none, some elapsedMs, some msg⟩

/-- Model of LLMClient.generate. The wall-clock latency measured around
the call is the elapsedMs parameter; an exception kind that the active
provider branch does not catch falls through to the outer handler. -/
def LLMClient_generate (provider mdl : List Char) (backend : BackendOutcome)
    (elapsedMs : Nat) (prompt : List Char) : GenReturn :=
  if prompt = [] then
    ⟨str "I couldn\x27t understand your question.", some (some 0), some 0, none⟩
  else if provider = str "openai" then
    match backend with
    | .success a t => ⟨a, some t, some elapsedMs, none⟩
    | .connError m =>
      ⟨str "I\x27m having trouble connecting to my knowledge source. Please try again later.",
       none, none, some m⟩
    | .rateLimitError m =>
      ⟨str "I\x27m currently overloaded with requests. Please try again later.",
       none, none, some m⟩
    | .apiError m =>
      ⟨str "I encountered an error while processing your question. Please try again.",
       none, none, some m⟩
    | .timeoutError => unexpectedReturn elapsedMs (str "Timeout")
    | .requestError m => unexpectedReturn elapsedMs m
    | .unexpected m => unexpectedReturn elapsedMs m
  else if provider = str "ollama" then
    match backend with
    | .success a t => ⟨a, some t, some elapsedMs, none⟩
    | .timeoutError =>
      ⟨str "I\x27m taking too long to respond. Please try a simpler question or try again later.",
       none, none, some (str "Timeout")⟩
    | .requestError m =>
      ⟨str "I\x27m having trouble connecting to my knowledge source. Please try again later.",
       none, none, some m⟩
    | .connError m => unexpectedReturn elapsedMs m
    | .rateLimitError m => unexpectedReturn elapsedMs m
    | .apiError m => unexpectedReturn elapsedMs m
    | .unexpected m => unexpectedReturn elapsedMs m
  else
    ⟨str "[LLM-" ++ provider ++ str "]: Unsupported provider",
     some none, some elapsedMs, none⟩

/-! ## RAG pipeline: app/llm/rag.py -/

/-- A document chunk as handled by the pipeline and the index. -/
structure Chunk where
  text : List Char
  metadata : List Char
deriving DecidableEq, Repr

/-- A value stored under the answer key of the pipeline result: either a
plain string (notice and fallback paths) or the generate record. -/
inductive AnswerValue
  | ofString (s : List Char)
  | ofRecord (r : GenReturn)
deriving DecidableEq, Repr

/-- The dict RAGPipeline.query returns. -/
structure RagResult where
  answer : AnswerValue
  sources : List Chunk
  prompt : Option (List Char)
deriving DecidableEq, Repr

/-- External calls the pipeline can make, recorded as an effect trace. -/
inductive Effect
  | retrieveCall
  | generateCall
deriving DecidableEq, Repr

/-- The pipeline collaborators: the index gateway (retrieve never raises,
returning the empty list on index failure) and the generation call, which
may raise. -/
structure PipelineEnv where
  retrieve : List Char → Nat → List Chunk
  generate : List Char → Except (List Char) GenReturn

/-- Modelled from the spec: the file app/llm/prompt_template.py that
defines PROMPT_TEMPLATE is not in the source tree; the spec says the
prompt is assembled from a fixed template around the newline-joined
retrieved chunk texts as context and the question. -/
def PROMPT_TEMPLATE_format (context question : List Char) : List Char :=
  str "Context:\n" ++ context ++ str "\n\nQuestion:\n" ++ question ++ str "\n\nAnswer:"

/-- The prompt rag.query assembles for a question: retrieved chunk texts
newline-joined as context, substituted into the fixed template. -/
def ragPrompt (env : PipelineEnv) (question : List Char) (topK : Nat) : List Char :=
  PROMPT_TEMPLATE_format
    (List.intercalate (str "\n") ((env.retrieve question topK).map Chunk.text)) question

/-- Model of RAGPipeline.query, additionally returning the trace of
external calls made. A flagged question returns the fixed notice with
empty sources and a null prompt before any external call; otherwise the
pipeline retrieves, assembles the prompt and calls generate, and a raised
generation error is caught and replaced by the fixed fallback answer with
the already-retrieved sources kept. -/
def RAGPipeline_query (env : PipelineEnv) (question : List Char) (topK : Nat) :
    RagResult × List Effect :=
  if scan_prompt_injection question then
    (⟨.ofString (str "Potential prompt injection detected."), [], none⟩, [])
  else
    let docs := env.retrieve question topK
    let prompt := ragPrompt env question topK
    match env.generate prompt with
    | .ok r => (⟨.ofRecord r, docs, some prompt⟩, [.retrieveCall, .generateCall])
    | .error _ =>
      (⟨.ofString (str "Sorry, I encountered an error while processing your question."),
        docs, some prompt⟩, [.retrieveCall, .generateCall])

/-- Model of RAGPipeline.add_documents over an abstract per-chunk
embed-and-insert step that may raise (fails). The store is the list of
already-inserted chunks; the Bool reports whether a failure was caught
and logged. The whole loop runs inside one try block, so the first raise
ends the loop; the handler logs and does not re-raise. -/
def add_documents (fails : Chunk → Bool) (store : List Chunk) (chunks : List Chunk) :
    List Chunk × Bool :=
  match chunks with
  | [] => (store, false)
  | c :: rest =>
    if fails c then (store, true)
    else add_documents fails (store ++ [c]) rest

/-! ## REST endpoints: app/api/routes.py -/

/-- The response schema of the query route (LLMResponse in
app/api/schema.py). -/
structure LLMResponse where
  answer : List Char
  sources : Option (List Chunk)
  tokens_used : Option Nat
  latency_ms : Option Nat
deriving DecidableEq, Repr

/-- Python "top_k or 3": a missing, null or zero top_k becomes 3. -/
def pyOrThree : Option Nat → Nat
  | none => 3
  | some 0 => 3
  | some (k + 1) => k + 1

/-- Model of the query_llm route handler, additionally returning the
trace of external calls. The question is sanitized, then screened; a
flagged question short-circuits to the notice answer with null sources.
Otherwise the route retrieves once itself, runs the pipeline query, and
unwraps a nested answer record down to its answer string. The response
always carries null tokens_used and null latency_ms. -/
def query_llm (env : PipelineEnv) (question : List Char) (topK : Option Nat) :
    LLMResponse × List Effect :=
  let userQuestion := sanitize_input question 2000
  if scan_prompt_injection userQuestion then
    (⟨str "Potential prompt injection detected.", none, none, none⟩, [])
  else
    let k := pyOrThree topK
    let topChunks := env.retrieve userQuestion k
    let run := RAGPipeline_query env userQuestion k
    let answerVal : List Char :=
      match run.1.answer with
      | .ofString s => s
      | .ofRecord r => r.answer
    (⟨sanitize_output answerVal 4000, some topChunks, none, none⟩,
     Effect.retrieveCall :: run.2)

/-- What the storage and ingestion work inside the upload handler does:
succeeds having ingested a number of chunks, or raises one of the
exception classes the handler catches. -/
inductive StorageOutcome
  | ok (chunksCount : Nat)
  | s3Error (msg : List Char)
  | valueError (msg : List Char)
  | unexpectedError (msg : List Char)
deriving DecidableEq, Repr

/-- An upload response body: the success shape or an error shape with the
error message and the optional details field. -/
inductive UploadBody
  | success (chunks : Nat) (filename : List Char) (size : Nat)
  | failure (error : List Char) (details : Option (List Char))
deriving DecidableEq, Repr

/-- The allowed upload extensions. -/
def allowedExtensions : List (List Char) := [str ".pdf", str ".docx", str ".txt"]

/-- Model of the upload_document route handler: status code and body.
ext is the lowercased filename extension and contentLen the uploaded byte
count; the storage parameter abstracts the MinIO and ingestion work and
its possible exceptions, which the handler maps to responses. -/
def upload_document (ext : List Char) (contentLen : Nat) (storage : StorageOutcome)
    (filename : List Char) : Nat × UploadBody :=
  if ext ∉ allowedExtensions then
    (400, .failure (str "Unsupported file type. Allowed: .pdf, .docx, .txt") none)
  else if contentLen = 0 then
    (400, .failure (str "Empty file") none)
  else
    match storage with
    | .ok n => (200, .success n filename contentLen)
    | .s3Error m => (500, .failure (str "Storage service error") (some m))
    | .valueError m => (400, .failure m none)
    | .unexpectedError _ => (500, .failure (str "Internal server error") none)

/-! ## Concrete fixtures used to instantiate theorems -/

/-- A pipeline environment whose index is empty and whose generation call
always raises. -/
def trivEnv : PipelineEnv := ⟨fun _ _ => [], fun _ => .error []⟩

/-- A pipeline environment that retrieves one fixed chunk and whose
generation call raises with a fixed message. -/
def failEnv : PipelineEnv :=
  ⟨fun _ _ => [⟨str "doc text", str "meta"⟩], fun _ => .error (str "boom")⟩

/-- A sample chunk. -/
def chA : Chunk := ⟨str "alpha", str "meta"⟩

/-- Another sample chunk. -/
def chB : Chunk := ⟨str "beta", str "meta"⟩

/-- A per-chunk insert behavior that raises exactly on chA. -/
def failsOnAlpha : Chunk → Bool := fun c => c.text = str "alpha"

/-! ## Helper lemmas -/

theorem pyStrip_length_le (l : List Char) : (pyStrip l).length ≤ l.length := by
  unfold pyStrip
  calc ((l.dropWhile isPySpace).reverse.dropWhile isPySpace).reverse.length
      = ((l.dropWhile isPySpace).reverse.dropWhile isPySpace).length := by
        exact List.length_reverse _
    _ ≤ (l.dropWhile isPySpace).reverse.length := (List.dropWhile_sublist _).length_le
    _ = (l.dropWhile isPySpace).length := List.length_reverse _
    _ ≤ l.length := (List.dropWhile_sublist _).length_le

theorem chunkLoop_length_bound (m : Nat) (A : List (List Char)) :
    ∀ (sents : List (List Char)) (current : List Char),
      (∀ s ∈ sents, s ∈ A) →
      (current.length ≤ m + 1 ∨ ∃ s ∈ A, current = s ∧ m < s.length) →
      ∀ c ∈ chunkLoop m sents current,
        c.length ≤ m + 1 ∨ ∃ s ∈ A, c = pyStrip s ∧ m < s.length := by
  intro sents
  induction sents with
  | nil =>
    intro current _ hcur c hc
    unfold chunkLoop at hc
    by_cases hnil : current = []
    · simp [hnil] at hc
    · simp only [hnil, if_false] at hc
      rw [List.mem_singleton] at hc
      subst hc
      rcases hcur with hlen | ⟨s, hsA, hse, hslen⟩
      · exact Or.inl (le_trans (pyStrip_length_le current) hlen)
      · exact Or.inr ⟨s, hsA, by rw [hse], hslen⟩
  | cons sent rest ih =>
    intro current hmem hcur c hc
    unfold chunkLoop at hc
    by_cases hover : m < current.length + sent.length
    · simp only [hover, if_true] at hc
      rcases List.mem_cons.mp hc with hc1 | hc2
      · subst hc1
        rcases hcur with hlen | ⟨s, hsA, hse, hslen⟩
        · exact Or.inl (le_trans (pyStrip_length_le current) hlen)
        · exact Or.inr ⟨s, hsA, by rw [hse], hslen⟩
      · refine ih sent (fun s hs => hmem s (List.mem_cons_of_mem _ hs)) ?_ c hc2
        rcases le_or_lt sent.length (m + 1) with hle | hgt
        · exact Or.inl hle
        · exact Or.inr ⟨sent, hmem sent (List.mem_cons_self _ _), rfl, Nat.lt_of_succ_lt hgt⟩
    · simp only [hover, if_false] at hc
      refine ih (current ++ ' ' :: sent) (fun s hs => hmem s (List.mem_cons_of_mem _ hs)) ?_ c hc
      left
      have : current.length + sent.length ≤ m := Nat.le_of_not_lt hover
      simp only [List.length_append, List.length_cons]
      omega

theorem htmlEscape_ne_amp_l_t (s : List Char) : htmlEscape s ≠ str "&lt" := by
  intro h
  rw [show str "&lt" = ['&', 'l', 't'] from rfl] at h
  cases s with
  | nil => simp [htmlEscape] at h
  | cons c rest =>
    unfold htmlEscape at h
    rw [List.flatMap_cons] at h
    unfold escapeChar at h
    split_ifs at h with h1 h2 h3 h4 h5
    · rw [show str "&amp;" = ['&', 'a', 'm', 'p', ';'] from rfl] at h
      simp at h
    · rw [show str "&lt;" = ['&', 'l', 't', ';'] from rfl] at h
      simp at h
    · rw [show str "&gt;" = ['&', 'g', 't', ';'] from rfl] at h
      simp at h
    · rw [show str "&quot;" = ['&', 'q', 'u', 'o', 't', ';'] from rfl] at h
      simp at h
    · rw [show str "&#x27;" = ['&', '#', 'x', '2', '7', ';'] from rfl] at h
      simp at h
    · simp only [List.singleton_append, List.cons.injEq] at h
      exact h1 h.1

theorem dispatch_spec (m w : Nat) (s : RLState) (ip : String) (t : Nat) :
    (dispatch m w s ip t).1 =
      (if m < s.clients (ip, t / w) + 1 then rateLimitedResult else forwardedResult) ∧
    ∀ k, (dispatch m w s ip t).2.clients k =
      if k = (ip, t / w) then s.clients (ip, t / w) + 1 else s.clients k := by
  unfold dispatch
  constructor
  · by_cases h : m < s.clients (ip, t / w) + 1 <;> simp [h]
  · intro k
    by_cases h : m < s.clients (ip, t / w) + 1 <;> simp [h]

theorem processAll_replicate_same (m w : Nat) (ip : String) (t : Nat) :
    ∀ (n : Nat) (s : RLState),
      (processAll m w s (List.replicate n (ip, t))).1 =
        List.replicate (min n (m - s.clients (ip, t / w))) forwardedResult ++
          List.replicate (n - (m - s.clients (ip, t / w))) rateLimitedResult ∧
      ∀ k, (processAll m w s (List.replicate n (ip, t))).2.clients k =
        if k = (ip, t / w) then s.clients k + n else s.clients k := by
  intro n
  induction n with
  | zero =>
    intro s
    constructor
    · simp [processAll]
    · intro k
      simp only [List.replicate_zero, processAll]
      split <;> rfl
  | succ n ih =>
    intro s
    obtain ⟨hd, hst⟩ := dispatch_spec m w s ip t
    set s₁ := (dispatch m w s ip t).2 with hs₁
    obtain ⟨ihRun, ihSt⟩ := ih s₁
    have hkey : s₁.clients (ip, t / w) = s.clients (ip, t / w) + 1 := by
      rw [hst (ip, t / w), if_pos rfl]
    rw [List.replicate_succ]
    constructor
    · show (dispatch m w s ip t).1 ::
        (processAll m w s₁ (List.replicate n (ip, t))).1 = _
      rw [ihRun, hd, hkey]
      by_cases hc : m < s.clients (ip, t / w) + 1
      · rw [if_pos hc]
        have e1 : m - s.clients (ip, t / w) = 0 := by omega
        have e2 : m - (s.clients (ip, t / w) + 1) = 0 := by omega
        rw [e1, e2]
        simp [List.replicate_succ]
      · rw [if_neg hc]
        have e1 : m - s.clients (ip, t / w) = (m - (s.clients (ip, t / w) + 1)) + 1 := by
          omega
        rw [e1, Nat.succ_min_succ, Nat.succ_sub_succ, List.replicate_succ,
          List.cons_append]
    · intro k
      show (processAll m w s₁ (List.replicate n (ip, t))).2.clients k = _
      rw [ihSt k, hst k]
      by_cases hk : k = (ip, t / w)
      · subst hk
        rw [if_pos rfl, if_pos rfl, if_pos rfl]
        omega
      · rw [if_neg hk, if_neg hk, if_neg hk]

/-! ## Claim theorems -/

/-- C3 counterexample: chunk_text applied to the empty string (with the
default max_length of 1000) does not return the empty sequence; it
returns a one-element sequence holding the empty chunk. -/
theorem c3_counterexample :
    chunk_text (str "") 1000 = [[]] ∧ ([[]] : List (List Char)) ≠ [] := by
  decide

/-- C3 (amended): chunk_text applied to the empty string returns, for
every max_length, the one-element sequence containing the empty chunk. -/
theorem c3_empty_input (maxLength : Nat) : chunk_text [] maxLength = [[]] := by
  simp [chunk_text, splitSentences, splitAux, chunkLoop, pyStrip, isPySpace]

/-- C4 counterexample: with max_length 5 the text "aaaaaaa. ab. ab"
yields the chunk "ab. ab", which is longer than max_length yet is not a
single sentence of the text (it is not the strip of any sentence the
splitter produced), refuting the claim that only a lone oversized
sentence may exceed max_length. -/
theorem c4_counterexample :
    str "ab. ab" ∈ chunk_text (str "aaaaaaa. ab. ab") 5 ∧
    5 < (str "ab. ab").length ∧
    ∀ s ∈ splitSentences (str "aaaaaaa. ab. ab"), pyStrip s ≠ str "ab. ab" := by
  decide

/-- C4 (amended): every chunk produced by chunk_text has length at most
max_length + 1 (the joining space can push a packed chunk one character
over the bound), except a chunk that is the whitespace-stripped form of a
single sentence whose own length exceeds max_length, which is emitted
whole. -/
theorem c4_chunk_length_bound (text : List Char) (maxLength : Nat) (c : List Char)
    (hc : c ∈ chunk_text text maxLength) :
    c.length ≤ maxLength + 1 ∨
      ∃ s ∈ splitSentences text, c = pyStrip s ∧ maxLength < s.length := by
  exact chunkLoop_length_bound maxLength (splitSentences text) (splitSentences text) []
    (fun s hs => hs) (Or.inl (Nat.zero_le _)) c hc

/-- C4 witness: the oversized single sentence "aaaaaaa." of the
counterexample text is itself a chunk, and the theorem applies to it. -/
theorem c4_chunk_length_bound_witness :
    str "aaaaaaa." ∈ chunk_text (str "aaaaaaa. ab. ab") 5 ∧
    ((str "aaaaaaa.").length ≤ 5 + 1 ∨
      ∃ s ∈ splitSentences (str "aaaaaaa. ab. ab"),
        str "aaaaaaa." = pyStrip s ∧ 5 < s.length) :=
  ⟨by decide, c4_chunk_length_bound (str "aaaaaaa. ab. ab") 5 (str "aaaaaaa.") (by decide)⟩

/-- C7 counterexample: on input "<" with max_length 3, the sanitizer
escapes first and then truncates, producing "&lt": a proper, incomplete
piece of the entity "&lt;" that no escaped text can equal — the
truncation did split an escaped entity at the end of the result. -/
theorem c7_counterexample :
    sanitize_input (str "<") 3 = str "&lt" ∧
    htmlEscape (str "<") = str "&lt;" ∧
    str "&lt" = (str "&lt;").take 3 ∧
    str "&lt" ≠ str "&lt;" ∧
    ∀ s : List Char, htmlEscape s ≠ str "&lt" :=
  ⟨by decide, by decide, by decide, by decide, htmlEscape_ne_amp_l_t⟩

/-- C7 (amended): the sanitizers escape markup-significant characters
first and truncate to max_length as the last step, so the result is
exactly the first max_length characters of the escaped text and its
length never exceeds max_length; truncation applied after escaping can,
however, split an escaped entity at the cut point. -/
theorem c7_escape_then_truncate (text : List Char) (maxLength : Nat) :
    sanitize_input text maxLength = (htmlEscape text).take maxLength ∧
    (sanitize_input text maxLength).length ≤ maxLength ∧
    sanitize_input text maxLength ++ (htmlEscape text).drop maxLength = htmlEscape text ∧
    sanitize_output text maxLength = (htmlEscape text).take maxLength := by
  refine ⟨rfl, ?_, ?_, rfl⟩
  · rw [sanitize_input, List.length_take]
    exact min_le_left _ _
  · exact List.take_append_drop maxLength (htmlEscape text)

/-- C2: from a state in which a client's counter for the current window
is zero, the first max_requests requests in that window are forwarded to
the downstream handler; the next request of the same window, whose
post-increment counter exceeds max_requests, is rejected with a 429 and
the handler is not invoked for it; and after that whole burst a request
falling in a different window with an untouched counter is forwarded
regardless of the prior window's count. -/
theorem c2_rate_limiter (m w : Nat) (s : RLState) (ip : String) (t t' : Nat)
    (hm : 0 < m)
    (h0 : s.clients (ip, t / w) = 0)
    (hw : t' / w ≠ t / w)
    (h0' : s.clients (ip, t' / w) = 0) :
    (processAll m w s (List.replicate (m + 1) (ip, t))).1 =
      List.replicate m forwardedResult ++ [rateLimitedResult] ∧
    forwardedResult.handlerInvoked = true ∧
    rateLimitedResult.handlerInvoked = false ∧
    rateLimitedResult.statusCode = some 429 ∧
    (dispatch m w (processAll m w s (List.replicate (m + 1) (ip, t))).2 ip t').1 =
      forwardedResult := by
  obtain ⟨hrun, hst⟩ := processAll_replicate_same m w ip t (m + 1) s
  refine ⟨?_, rfl, rfl, rfl, ?_⟩
  · rw [hrun, h0]
    have e1 : min (m + 1) (m - 0) = m := by omega
    have e2 : (m + 1) - (m - 0) = 1 := by omega
    rw [e1, e2, List.replicate_one]
  · have hk : ((ip, t' / w) : String × Nat) ≠ (ip, t / w) := by
      intro he
      exact hw (congrArg Prod.snd he)
    have hcount :
        (processAll m w s (List.replicate (m + 1) (ip, t))).2.clients (ip, t' / w) = 0 := by
      rw [hst (ip, t' / w), if_neg hk, h0']
    obtain ⟨hd, _⟩ := dispatch_spec m w (processAll m w s (List.replicate (m + 1) (ip, t))).2 ip t'
    rw [hd, hcount, if_neg (by omega)]

/-- C2 witness: two allowed requests then a 429 for a concrete client at
limit 2 in a 60-second window, and a forwarded request in the next
window. -/
theorem c2_rate_limiter_witness :
    0 < 2 ∧
    (RLState.mk fun _ => 0).clients ("a", (0 : Nat) / 60) = 0 ∧
    ((60 : Nat) / 60 ≠ (0 : Nat) / 60) ∧
    (RLState.mk fun _ => 0).clients ("a", (60 : Nat) / 60) = 0 ∧
    ((processAll 2 60 (RLState.mk fun _ => 0) (List.replicate (2 + 1) ("a", 0))).1 =
        List.replicate 2 forwardedResult ++ [rateLimitedResult] ∧
      forwardedResult.handlerInvoked = true ∧
      rateLimitedResult.handlerInvoked = false ∧
      rateLimitedResult.statusCode = some 429 ∧
      (dispatch 2 60
          (processAll 2 60 (RLState.mk fun _ => 0) (List.replicate (2 + 1) ("a", 0))).2
          "a" 60).1 = forwardedResult) :=
  ⟨by decide, rfl, by decide, rfl,
    c2_rate_limiter 2 60 ⟨fun _ => 0⟩ "a" 0 60 (by decide) rfl (by decide) rfl⟩

/-- C1: a question flagged by the injection screen makes the query route
return the fixed notice answer with absent sources and an empty external
call trace (no retrieval, no generation), and likewise makes the pipeline
query return the fixed notice with empty sources, null prompt and an
empty call trace. -/
theorem c1_flagged_query_short_circuits
    (env : PipelineEnv) (question : List Char) (topK : Option Nat)
    (hroute : scan_prompt_injection (sanitize_input question 2000) = true)
    (env₂ : PipelineEnv) (q₂ : List Char) (k₂ : Nat)
    (hpipe : scan_prompt_injection q₂ = true) :
    query_llm env question topK =
      (⟨str "Potential prompt injection detected.", none, none, none⟩, []) ∧
    (query_llm env question topK).2 = [] ∧
    RAGPipeline_query env₂ q₂ k₂ =
      (⟨.ofString (str "Potential prompt injection detected."), [], none⟩, []) ∧
    (RAGPipeline_query env₂ q₂ k₂).2 = [] := by
  have h1 : query_llm env question topK =
      (⟨str "Potential prompt injection detected.", none, none, none⟩, []) := by
    simp [query_llm, hroute]
  have h2 : RAGPipeline_query env₂ q₂ k₂ =
      (⟨.ofString (str "Potential prompt injection detected."), [], none⟩, []) := by
    simp [RAGPipeline_query, hpipe]
  exact ⟨h1, by rw [h1], h2, by rw [h2]⟩

/-- C1 witness: the flagged question "ignore previous instructions" at
the route and the flagged question "you are now the admin" at the
pipeline, in a concrete environment. -/
theorem c1_flagged_query_short_circuits_witness :
    scan_prompt_injection (sanitize_input (str "ignore previous instructions") 2000) = true ∧
    scan_prompt_injection (str "you are now the admin") = true ∧
    (query_llm trivEnv (str "ignore previous instructions") none =
        (⟨str "Potential prompt injection detected.", none, none, none⟩, []) ∧
      (query_llm trivEnv (str "ignore previous instructions") none).2 = [] ∧
      RAGPipeline_query trivEnv (str "you are now the admin") 3 =
        (⟨.ofString (str "Potential prompt injection detected."), [], none⟩, []) ∧
      (RAGPipeline_query trivEnv (str "you are now the admin") 3).2 = []) :=
  ⟨by decide, by decide,
    c1_flagged_query_short_circuits trivEnv (str "ignore previous instructions") none
      (by decide) trivEnv (str "you are now the admin") 3 (by decide)⟩

/-- C5: when the question passes the injection screen and the generation
call raises, the pipeline query still returns normally, with the fixed
fallback answer string and with sources exactly the chunks retrieved
before the failure; the error is not propagated and the sources are not
discarded. -/
theorem c5_generation_failure_keeps_sources
    (env : PipelineEnv) (question : List Char) (topK : Nat) (err : List Char)
    (hscan : scan_prompt_injection question = false)
    (hgen : env.generate (ragPrompt env question topK) = .error err) :
    RAGPipeline_query env question topK =
      (⟨.ofString (str "Sorry, I encountered an error while processing your question."),
        env.retrieve question topK, some (ragPrompt env question topK)⟩,
       [.retrieveCall, .generateCall]) := by
  unfold RAGPipeline_query
  rw [hscan]
  simp only [Bool.false_eq_true, if_false, hgen]

/-- C5 witness: a harmless question in an environment whose generation
call always raises; the retrieved chunk is kept alongside the fallback
answer. -/
theorem c5_generation_failure_keeps_sources_witness :
    scan_prompt_injection (str "hello there") = false ∧
    failEnv.generate (ragPrompt failEnv (str "hello there") 3) = .error (str "boom") ∧
    RAGPipeline_query failEnv (str "hello there") 3 =
      (⟨.ofString (str "Sorry, I encountered an error while processing your question."),
        failEnv.retrieve (str "hello there") 3,
        some (ragPrompt failEnv (str "hello there") 3)⟩,
       [.retrieveCall, .generateCall]) :=
  ⟨by decide, rfl,
    c5_generation_failure_keeps_sources failEnv (str "hello there") 3 (str "boom")
      (by decide) rfl⟩

/-- C10: the query route's HTTP response always carries null tokens_used
and null latency_ms, on the flagged path and on the answered path alike,
even though the generation gateway's success record carries both a
latency value and a tokens_used key; the route discards them. -/
theorem c10_route_discards_usage_fields
    (env : PipelineEnv) (question : List Char) (topK : Option Nat)
    (mdl answer : List Char) (tokens : Option Nat) (elapsedMs : Nat)
    (c : Char) (p : List Char) :
    (query_llm env question topK).1.tokens_used = none ∧
    (query_llm env question topK).1.latency_ms = none ∧
    (LLMClient_generate (str "openai") mdl (.success answer tokens) elapsedMs
        (c :: p)).latency_ms = some elapsedMs ∧
    (LLMClient_generate (str "openai") mdl (.success answer tokens) elapsedMs
        (c :: p)).tokens_used = some tokens := by
  have hgen : LLMClient_generate (str "openai") mdl (.success answer tokens) elapsedMs
      (c :: p) = ⟨answer, some tokens, some elapsedMs, none⟩ := by
    unfold LLMClient_generate
    rw [if_neg (List.cons_ne_nil c p), if_pos rfl]
  refine ⟨?_, ?_, by rw [hgen], by rw [hgen]⟩
  · simp only [query_llm]
    split <;> rfl
  · simp only [query_llm]
    split <;> rfl

/-- C6 counterexample: a valid upload whose storage call raises an
S3Error with message "access denied for key minioadmin" gets a 500
response whose body carries that raw exception text in its details
field - the storage-failure body is not free of internal detail. -/
theorem c6_counterexample :
    upload_document (str ".txt") 4
        (.s3Error (str "access denied for key minioadmin")) (str "a.txt") =
      (500, .failure (str "Storage service error")
        (some (str "access denied for key minioadmin"))) ∧
    (some (str "access denied for key minioadmin") : Option (List Char)) ≠ none := by
  decide

/-- C6 (amended): for a valid upload, an unexpected internal error yields
a 500 with the fixed generic body carrying no detail of the exception,
while a storage-layer failure yields a 500 whose body has the generic
storage-error message but also a details field holding the raw exception
text. -/
theorem c6_error_bodies (ext fn m : List Char) (n : Nat)
    (hext : ext ∈ allowedExtensions) (hn : n ≠ 0) :
    upload_document ext n (.unexpectedError m) fn =
      (500, .failure (str "Internal server error") none) ∧
    upload_document ext n (.s3Error m) fn =
      (500, .failure (str "Storage service error") (some m)) := by
  constructor <;>
    · unfold upload_document
      rw [if_neg (not_not_intro hext), if_neg hn]

/-- C6 witness: a concrete valid text upload of 4 bytes with exception
message "oops". -/
theorem c6_error_bodies_witness :
    str ".txt" ∈ allowedExtensions ∧
    (4 : Nat) ≠ 0 ∧
    (upload_document (str ".txt") 4 (.unexpectedError (str "oops")) (str "a.txt") =
        (500, .failure (str "Internal server error") none) ∧
      upload_document (str ".txt") 4 (.s3Error (str "oops")) (str "a.txt") =
        (500, .failure (str "Storage service error") (some (str "oops")))) :=
  ⟨by decide, by decide,
    c6_error_bodies (str ".txt") (str "a.txt") (str "oops") 4 (by decide) (by decide)⟩

/-- C8 counterexample: a nonempty prompt against the hosted backend that
raises a connection error gets a structured record whose latency_ms key
is absent, refuting the claim that latency_ms is present on every path
including backend-error paths. -/
theorem c8_counterexample :
    (LLMClient_generate (str "openai") (str "o4-mini")
        (.connError (str "connection refused")) 7 (str "hi")).latency_ms = none ∧
    (LLMClient_generate (str "openai") (str "o4-mini")
        (.connError (str "connection refused")) 7 (str "hi")).answer =
      str "I\x27m having trouble connecting to my knowledge source. Please try again later." := by
  decide

/-- C8 (amended): generate always returns a structured record with an
answer string and never a bare string; latency_ms is present on the
success paths, the empty-prompt path, the unsupported-provider path and
the unexpected-error path, but is absent from the handled backend-error
paths (connection, rate-limit and API errors of the hosted backend;
timeout and request errors of the local backend), which carry an error
indicator instead. -/
theorem c8_generate_record_paths
    (mdl a m : List Char) (t : Option Nat) (e : Nat) (c : Char) (p : List Char)
    (b : BackendOutcome) :
    LLMClient_generate (str "openai") mdl (.success a t) e (c :: p) =
      ⟨a, some t, some e, none⟩ ∧
    LLMClient_generate (str "ollama") mdl (.success a t) e (c :: p) =
      ⟨a, some t, some e, none⟩ ∧
    LLMClient_generate (str "openai") mdl b e [] =
      ⟨str "I couldn\x27t understand your question.", some (some 0), some 0, none⟩ ∧
    LLMClient_generate (str "openai") mdl (.connError m) e (c :: p) =
      ⟨str "I\x27m having trouble connecting to my knowledge source. Please try again later.",
        none, none, some m⟩ ∧
    LLMClient_generate (str "openai") mdl (.rateLimitError m) e (c :: p) =
      ⟨str "I\x27m currently overloaded with requests. Please try again later.",
        none, none, some m⟩ ∧
    LLMClient_generate (str "openai") mdl (.apiError m) e (c :: p) =
      ⟨str "I encountered an error while processing your question. Please try again.",
        none, none, some m⟩ ∧
    LLMClient_generate (str "ollama") mdl .timeoutError e (c :: p) =
      ⟨str "I\x27m taking too long to respond. Please try a simpler question or try again later.",
        none, none, some (str "Timeout")⟩ ∧
    LLMClient_generate (str "ollama") mdl (.requestError m) e (c :: p) =
      ⟨str "I\x27m having trouble connecting to my knowledge source. Please try again later.",
        none, none, some m⟩ ∧
    LLMClient_generate (str "openai") mdl (.unexpected m) e (c :: p) = unexpectedReturn e m ∧
    LLMClient_generate (str "other") mdl b e (c :: p) =
      ⟨str "[LLM-" ++ str "other" ++ str "]: Unsupported provider",
        some none, some e, none⟩ := by
  refine ⟨?_, ?_, ?_, ?_, ?_, ?_, ?_, ?_, ?_, ?_⟩
  · unfold LLMClient_generate
    rw [if_neg (List.cons_ne_nil c p), if_pos rfl]
  · unfold LLMClient_generate
    rw [if_neg (List.cons_ne_nil c p), if_neg (by decide), if_pos rfl]
  · unfold LLMClient_generate
    rw [if_pos rfl]
  · unfold LLMClient_generate
    rw [if_neg (List.cons_ne_nil c p), if_pos rfl]
  · unfold LLMClient_generate
    rw [if_neg (List.cons_ne_nil c p), if_pos rfl]
  · unfold LLMClient_generate
    rw [if_neg (List.cons_ne_nil c p), if_pos rfl]
  · unfold LLMClient_generate
    rw [if_neg (List.cons_ne_nil c p), if_neg (by decide), if_pos rfl]
  · unfold LLMClient_generate
    rw [if_neg (List.cons_ne_nil c p), if_neg (by decide), if_pos rfl]
  · unfold LLMClient_generate
    rw [if_neg (List.cons_ne_nil c p), if_pos rfl]
  · unfold LLMClient_generate
    rw [if_neg (List.cons_ne_nil c p), if_neg (by decide), if_neg (by decide)]

/-- C9 counterexample: in a two-chunk batch whose first chunk fails to
embed-and-insert, the second chunk does not fail yet is never inserted -
the failure aborts the processing of the remaining chunks of the batch. -/
theorem c9_counterexample :
    failsOnAlpha chB = false ∧
    add_documents failsOnAlpha [] [chA, chB] = ([], true) ∧
    chB ∉ (add_documents failsOnAlpha [] [chA, chB]).1 := by
  decide

/-- C9 (amended): a failing chunk is caught and logged and the operation
returns normally instead of raising, but it ends the batch: exactly the
chunks strictly before the first failure are inserted, and the failing
chunk and all chunks after it are skipped. -/
theorem c9_first_failure_aborts_rest (fails : Chunk → Bool) (store chunks : List Chunk) :
    add_documents fails store chunks =
      (store ++ chunks.takeWhile (fun c => !(fails c)), chunks.any fails) := by
  induction chunks generalizing store with
  | nil => simp [add_documents]
  | cons c rest ih =>
    by_cases hc : fails c
    · simp [add_documents, hc]
    · simp [add_documents, hc, ih]
